import Mathlib

/-!
Verification of the Zadig helm environment merge engine
(`pkg/microservice/aslan/core/common/service/helm/helm.go`) and the testing
job compiler (`TestingJob`).  Go functions are shallowly embedded: fallible
storage and catalog operations become oracle parameters returning `Except` or
`Option`, Go maps become association lists whose list order stands for the
map iteration order, and the commit functions are embedded as event-trace
producers so lock/transaction ordering can be stated.
-/

namespace Zadig

/-! ## Data model: environment services (helm.go) -/

/-- One running service instance in an environment document.
`fromZadig` embeds the result of the `ProductService.FromZadig` method
(true when the service is built from a catalog-tracked definition). -/
structure ProductService where
  serviceName : String
  releaseName : String
  fromZadig : Bool
  deployStrategy : String
  updateTime : Int
deriving Repr, DecidableEq

/-- A Go `map[string]*ProductService`, embedded as an association list.
List order models the (unspecified) Go map iteration order. -/
abbrev SvcMap := List (String × ProductService)

/-- Go map read `m[k]` (nil pointer becomes `none`). -/
def mapGet (m : SvcMap) (k : String) : Option ProductService :=
  (m.find? (fun p => p.1 == k)).map (fun p => p.2)

/-- Go map assignment `m[k] = v`: overwrite the existing key or append. -/
def mapSet (m : SvcMap) (k : String) (v : ProductService) : SvcMap :=
  if m.any (fun p => p.1 == k) then
    m.map (fun p => if p.1 == k then (k, v) else p)
  else
    m ++ [(k, v)]

/-- Go `delete(m, k)` (keys of a Go map are unique). -/
def mapDelete (m : SvcMap) (k : String) : SvcMap :=
  m.filter (fun p => p.1 != k)

/-- helm.go 149-154: iterate the native-service map, delete the first entry
whose value's release name matches, then `break`. -/
def deleteFirstRelease : SvcMap → String → SvcMap
  | [], _ => []
  | p :: rest, rel =>
    if p.2.releaseName == rel then rest else p :: deleteFirstRelease rest rel

/-- helm.go 142-155: single-service classifier update in
`UpdateHelmServiceInEnv`.  A Zadig-native service is written under its
service name and the competing chart entry is deleted; an imported chart
release is written under its release name and the first native entry with
the same release name is deleted. -/
def applyServiceUpdate (svcMap chartMap : SvcMap) (svc : ProductService)
    (now : Int) : SvcMap × SvcMap :=
  if svc.fromZadig then
    (mapSet svcMap svc.serviceName { svc with updateTime := now },
     mapDelete chartMap svc.releaseName)
  else
    (deleteFirstRelease svcMap svc.releaseName,
     mapSet chartMap svc.releaseName { svc with updateTime := now })

/-! ## Orchestration reconciler (helm.go 169-186, 246-263, 310-322) -/

/-- helm.go 176-181: inner loop appending, for each template-declared
service name present in the native map, the mapped service object. -/
def buildGroup (m : SvcMap) (g : List String) : List ProductService :=
  g.foldl (fun acc n =>
    match mapGet m n with
    | some s => acc ++ [s]
    | none => acc) []

/-- helm.go 169-182: replay the template orchestration group by group
(the `len(newServices) >= i` guard always holds, so one output group is
appended per template group). -/
def replayGroups (orch : List (List String)) (m : SvcMap) :
    List (List ProductService) :=
  orch.foldl (fun acc g => acc ++ [buildGroup m g]) []

/-- helm.go 184-186: `newServices[len(newServices)-1] = append(...)`.
On an empty group list the Go index is `-1` and the program panics,
modelled as `none`. -/
def appendToLast (charts : List ProductService) :
    List (List ProductService) → Option (List (List ProductService))
  | [] => none
  | [g] => some [g ++ charts]
  | g :: g2 :: rest => (appendToLast charts (g2 :: rest)).map (fun t => g :: t)

/-- helm.go 163-186 / 245-263: the grouped reconciliation shared by
`UpdateHelmServiceInEnv` and `UpdateHelmAllServicesInEnv`.  When the chart
map is empty the Go chart loop never indexes the slice, so even an empty
group list is returned unchanged. -/
def reconcileServices (orch : List (List String)) (m : SvcMap)
    (charts : List ProductService) : Option (List (List ProductService)) :=
  let groups := replayGroups orch m
  if charts.isEmpty then some groups else appendToLast charts groups

/-- helm.go 309-322: the single-group variant used by
`UpdateHelmServicesGroupInEnv`: same replay flattened to one group, chart
services appended at the end (no group indexing, hence total). -/
def reconcileGroupFlat (orch : List (List String)) (m : SvcMap)
    (charts : List ProductService) : List ProductService :=
  (orch.foldl (fun acc g =>
    g.foldl (fun acc2 n =>
      match mapGet m n with
      | some s => acc2 ++ [s]
      | none => acc2) acc) []) ++ charts

/-- Modelled from the spec: the Service Classifier (`Product.LintServices`,
`Product.GetServiceMap` live outside this excerpt) "splits a flat/grouped
service list into Zadig-native services (keyed by service name)". -/
def getServiceMap (services : List (List ProductService)) : SvcMap :=
  services.flatten.foldl
    (fun m s => if s.fromZadig then mapSet m s.serviceName s else m) []

/-- Modelled from the spec: the Service Classifier
(`Product.GetChartServiceMap` lives outside this excerpt) keys
"externally-imported chart releases" by release name. -/
def getChartServiceMap (services : List (List ProductService)) : SvcMap :=
  services.flatten.foldl
    (fun m s => if s.fromZadig then m else mapSet m s.releaseName s) []

/-- Values of a service map, in map iteration order (Go `range` over values). -/
def chartValues (m : SvcMap) : List ProductService := m.map (fun p => p.2)

/-! ## Transactional committer event traces (helm.go 113-331) -/

/-- Observable events of a commit operation, in execution order. -/
inductive Ev where
  | startTxn
  | createVersion
  | lockEv (k : String)
  | unlockEv (k : String)
  | findProduct
  | findTemplate
  | reconcilePanic
  | updateEnv
  | commitTxn
  | abortTxn
  | endSession
deriving Repr, DecidableEq

/-- helm.go 128: `fmt.Sprintf("%s:%s:%s", UpdateHelmEnvLockKey, productName, envName)`. -/
def lockKey (productName envName : String) : String :=
  "UpdateHelmEnv" ++ ":" ++ productName ++ ":" ++ envName

/-- Does event `a` occur in the trace? -/
def evContains (a : Ev) : List Ev → Bool
  | [] => false
  | e :: rest => if e = a then true else evContains a rest

/-- Does some occurrence of `a` precede a later occurrence of `b`? -/
def evBefore (a b : Ev) : List Ev → Bool
  | [] => false
  | e :: rest => if e = a then evContains b rest else evBefore a b rest

/-- Template product document: test and production orchestrations
(helm.go 163-167). -/
structure TemplateProduct where
  services : List (List String)
  productionServices : List (List String)
deriving Repr, DecidableEq

/-- Oracle for the storage collaborators of `UpdateHelmServiceInEnv`:
success of `StartTransaction`, of `CreateEnvServiceVersion`, the classifier
maps of the transactional `Find` of the environment, the template `Find`,
and success of `Update` / `CommitTransaction`. -/
structure EnvOracle where
  startTxnOk : Bool
  createVersionOk : Bool
  findProductRes : Option (SvcMap × SvcMap)
  findTemplateRes : Option TemplateProduct
  updateOk : Bool
  commitOk : Bool

/-- helm.go 113-209 `UpdateHelmServiceInEnv`, embedded as an event-trace
producer.  The deferred `envLock.Unlock()` and `session.EndSession` run on
every exit path after the lock is taken, including the slice-index panic of
the chart-append (modelled by `reconcilePanic`); the deploy-strategy map
update (helm.go 188-200, helpers outside this excerpt) is a pure in-memory
field update with no observable event and is elided. -/
def updateHelmServiceInEnv (o : EnvOracle) (productName envName : String)
    (production : Bool) (productSvc : ProductService) (now : Int) :
    List Ev × Except Unit Unit :=
  if o.startTxnOk = false then ([.startTxn, .endSession], .error ()) else
  let k := lockKey productName envName
  let pre : List Ev := [.startTxn, .createVersion, .lockEv k]
  match o.findProductRes with
  | none => (pre ++ [.findProduct, .abortTxn, .unlockEv k, .endSession], .error ())
  | some maps =>
    match o.findTemplateRes with
    | none =>
      (pre ++ [.findProduct, .findTemplate, .abortTxn, .unlockEv k, .endSession],
       .error ())
    | some tp =>
      let updated := applyServiceUpdate maps.1 maps.2 productSvc now
      let orch := if production then tp.productionServices else tp.services
      match reconcileServices orch updated.1 (chartValues updated.2) with
      | none =>
        (pre ++ [.findProduct, .findTemplate, .reconcilePanic, .unlockEv k,
                 .endSession], .error ())
      | some _ =>
        if o.updateOk = false then
          (pre ++ [.findProduct, .findTemplate, .updateEnv, .abortTxn,
                   .unlockEv k, .endSession], .error ())
        else if o.commitOk = false then
          (pre ++ [.findProduct, .findTemplate, .updateEnv, .commitTxn,
                   .unlockEv k, .endSession], .error ())
        else
          (pre ++ [.findProduct, .findTemplate, .updateEnv, .commitTxn,
                   .unlockEv k, .endSession], .ok ())

/-- Oracle for `UpdateHelmAllServicesInEnv` / `UpdateHelmServicesGroupInEnv`
(no transactional environment read and no version snapshot there). -/
structure AllOracle where
  startTxnOk : Bool
  findTemplateRes : Option TemplateProduct
  updateOk : Bool
  commitOk : Bool

/-- helm.go 212-273 `UpdateHelmAllServicesInEnv` as an event-trace producer. -/
def updateHelmAllServicesInEnv (o : AllOracle) (productName envName : String)
    (services : List (List ProductService)) (production : Bool) :
    List Ev × Except Unit Unit :=
  if o.startTxnOk = false then ([.startTxn, .endSession], .error ()) else
  let k := lockKey productName envName
  let pre : List Ev := [.startTxn, .lockEv k]
  match o.findTemplateRes with
  | none => (pre ++ [.findTemplate, .abortTxn, .unlockEv k, .endSession], .error ())
  | some tp =>
    let orch := if production then tp.productionServices else tp.services
    match reconcileServices orch (getServiceMap services)
        (chartValues (getChartServiceMap services)) with
    | none =>
      (pre ++ [.findTemplate, .reconcilePanic, .unlockEv k, .endSession],
       .error ())
    | some _ =>
      if o.updateOk = false then
        (pre ++ [.findTemplate, .updateEnv, .abortTxn, .unlockEv k, .endSession],
         .error ())
      else if o.commitOk = false then
        (pre ++ [.findTemplate, .updateEnv, .commitTxn, .unlockEv k, .endSession],
         .error ())
      else
        (pre ++ [.findTemplate, .updateEnv, .commitTxn, .unlockEv k, .endSession],
         .ok ())

/-- helm.go 276-332 `UpdateHelmServicesGroupInEnv` as an event-trace
producer (its flat reconciliation never indexes, hence never panics). -/
def updateHelmServicesGroupInEnv (o : AllOracle) (productName envName : String)
    (index : Nat) (group : List ProductService) (production : Bool) :
    List Ev × Except Unit Unit :=
  if o.startTxnOk = false then ([.startTxn, .endSession], .error ()) else
  let k := lockKey productName envName
  let pre : List Ev := [.startTxn, .lockEv k]
  match o.findTemplateRes with
  | none => (pre ++ [.findTemplate, .abortTxn, .unlockEv k, .endSession], .error ())
  | some tp =>
    let orch := if production then tp.productionServices else tp.services
    let _newGroup := reconcileGroupFlat orch (getServiceMap [group])
        (chartValues (getChartServiceMap [group]))
    let _ := index
    if o.updateOk = false then
      (pre ++ [.findTemplate, .updateEnv, .abortTxn, .unlockEv k, .endSession],
       .error ())
    else if o.commitOk = false then
      (pre ++ [.findTemplate, .updateEnv, .commitTxn, .unlockEv k, .endSession],
       .error ())
    else
      (pre ++ [.findTemplate, .updateEnv, .commitTxn, .unlockEv k, .endSession],
       .ok ())

/-- The lock discipline the commit operations actually follow: whenever the
lock is taken, the transaction was already begun and the lock is released
later; the transactional reads happen under the lock; commit/abort happen
before the release. -/
def lockDiscipline (k : String) (t : List Ev) : Bool :=
  (!(evContains (.lockEv k) t) ||
    (evBefore .startTxn (.lockEv k) t && evBefore (.lockEv k) (.unlockEv k) t)) &&
  (!(evContains .findProduct t) || evBefore (.lockEv k) .findProduct t) &&
  (!(evContains .findTemplate t) || evBefore (.lockEv k) .findTemplate t) &&
  (!(evContains .commitTxn t) || evBefore .commitTxn (.unlockEv k) t) &&
  (!(evContains .abortTxn t) || evBefore .abortTxn (.unlockEv k) t)

/-! ## Concrete instances used by witnesses and counterexamples -/

/-- A Zadig-native service named `a`. -/
def exSvcA : ProductService := ⟨"a", "ra", true, "deploy", 0⟩

/-- The updated replacement for native service `b`. -/
def exSvcB2 : ProductService := ⟨"b", "rb", true, "deploy", 9⟩

/-- A Zadig-native service named `c`. -/
def exSvcC : ProductService := ⟨"c", "rc", true, "deploy", 0⟩

/-- An import-only chart release `r`. -/
def exSvcR : ProductService := ⟨"", "r", false, "import", 0⟩

/-- Native map for the two-group example of the spec. -/
def exMap : SvcMap := [("a", exSvcA), ("b", exSvcB2), ("c", exSvcC)]

/-- Two native services sharing release name `relR` (the service map is
keyed by service name, so this state is representable). -/
def svcNativeR1 : ProductService := ⟨"s1", "relR", true, "deploy", 0⟩

/-- Second native service with release name `relR`. -/
def svcNativeR2 : ProductService := ⟨"s2", "relR", true, "deploy", 0⟩

/-- An imported chart release with release name `relR`. -/
def svcImportR : ProductService := ⟨"", "relR", false, "import", 0⟩

/-- All-success oracle for the single-service commit trace. -/
def exOracleOk : EnvOracle :=
  ⟨true, true, some ([], []), some ⟨[["svc1"]], [["svc1"]]⟩, true, true⟩

/-- Native service used by the all-success commit trace. -/
def exNative : ProductService := ⟨"svc1", "rel1", true, "deploy", 0⟩

/-! ## Data model: testing job compiler (TestingJob) -/

/-- `config.ProductTestType`. -/
def productTestType : String := "product"

/-- `config.ServiceTestType`. -/
def serviceTestType : String := "service"

/-- `config.SourceFromJob`. -/
def sourceFromJob : String := "fromjob"

/-- `config.JobZadigBuild`. -/
def jobZadigBuild : String := "zadig-build"

/-- `config.JobZadigDistributeImage`. -/
def jobZadigDistributeImage : String := "zadig-distribute-image"

/-- `config.JobZadigDeploy`. -/
def jobZadigDeploy : String := "zadig-deploy"

/-- `config.JobZadigScanning`. -/
def jobZadigScanning : String := "zadig-scanning"

/-- `setting.JobVMInfrastructure`. -/
def vmInfrastructure : String := "vm"

/-- `types.ObjectMedium`. -/
def objectMedium : String := "object"

/-- `types.NFSMedium`. -/
def nfsMedium : String := "nfs"

/-- `types.ScriptTypeShell`. -/
def scriptTypeShell : String := "shell"

/-- `types.ScriptTypeBatchFile`. -/
def scriptTypeBatchFile : String := "batch_file"

/-- `types.ScriptTypePowerShell`. -/
def scriptTypePowerShell : String := "powershell"

/-- An environment variable key/value pair (`commonmodels.KeyVal`). -/
structure KeyVal where
  key : String
  value : String
deriving Repr, DecidableEq

/-- Repository reference, abstracted to an identifier: no claim inspects
repo internals. -/
abbrev Repo := String

/-- Object-storage backend reference, abstracted to an identifier. -/
abbrev S3Storage := String

/-- The zero `commonmodels.S3Storage` the Go code starts `cacheS3` with. -/
def emptyS3 : S3Storage := ""

/-- `commonmodels.BasicImage` (only `Value` is consumed). -/
structure BasicImage where
  value : String
deriving Repr, DecidableEq

/-- A cluster's cache configuration (`clusterInfo.Cache`). -/
structure CacheConfig where
  mediumType : String
  objectID : String
  nfsSubpath : String
deriving Repr, DecidableEq

/-- `commonmodels.K8SCluster`, reduced to the fields the compiler reads. -/
structure ClusterInfo where
  cache : CacheConfig
deriving Repr, DecidableEq

/-- `testingInfo.PreTest`, reduced to the fields the compiler reads. -/
structure PreTest where
  imageID : String
  clusterID : String
  strategyID : String
  envs : List KeyVal
  installs : List String
deriving Repr, DecidableEq

/-- `PostTest.ObjectStorageUpload`. -/
structure ObjectStorageUpload where
  enabled : Bool
  objectStorageID : String
deriving Repr, DecidableEq

/-- `testingInfo.PostTest`. -/
structure PostTest where
  objectStorageUpload : Option ObjectStorageUpload
deriving Repr, DecidableEq

/-- The immutable catalog test-suite definition (`commonmodels.Testing`);
outputs are reduced to their names. -/
structure TestingInfo where
  name : String
  timeout : Nat
  outputs : List String
  infrastructure : String
  vmLabels : List String
  scriptType : String
  cacheEnable : Bool
  cacheDirType : String
  cacheUserDir : String
  repos : List Repo
  preTest : PreTest
  testReportPath : String
  artifactPaths : List String
  testResultPath : String
  postTest : Option PostTest
deriving Repr, DecidableEq

/-- Reference to a catalog test suite with job-level overrides
(`commonmodels.TestModule`). -/
structure TestModule where
  name : String
  projectName : String
  repos : List Repo
  keyVals : List KeyVal
deriving Repr, DecidableEq

/-- `commonmodels.ServiceAndTest`: an embedded `TestModule` paired with a
target service and module. -/
structure ServiceAndTest where
  testModule : TestModule
  serviceName : String
  serviceModule : String
deriving Repr, DecidableEq

/-- `commonmodels.ServiceTestTarget`. -/
structure ServiceTestTarget where
  serviceName : String
  serviceModule : String
deriving Repr, DecidableEq

/-- `commonmodels.ZadigTestingJobSpec`, decoded form of the job's payload. -/
structure ZadigTestingJobSpec where
  testType : String
  testModules : List TestModule
  serviceAndTests : List ServiceAndTest
  targetServices : List ServiceTestTarget
  source : String
  jobName : String
  originJobName : String
deriving Repr, DecidableEq

/-- `commonmodels.ZadigBuildJobSpec.ServiceAndBuilds` entry. -/
structure ServiceAndBuild where
  serviceName : String
  serviceModule : String
deriving Repr, DecidableEq

/-- `commonmodels.ZadigDistributeImageJobSpec.Targets` entry. -/
structure DistributeTarget where
  serviceName : String
  serviceModule : String
deriving Repr, DecidableEq

/-- One module of a deploy job's service. -/
structure DeployModuleInfo where
  serviceModule : String
deriving Repr, DecidableEq

/-- One service of a `commonmodels.ZadigDeployJobSpec`. -/
structure DeployServiceInfo where
  serviceName : String
  modules : List DeployModuleInfo
deriving Repr, DecidableEq

/-- The opaque job payload, embedded as a sum over the decoded spec types;
a constructor mismatch models an `IToi` decode failure. -/
inductive WJobSpec where
  | build (serviceAndBuilds : List ServiceAndBuild)
  | distribute (targets : List DistributeTarget)
  | deploy (services : List DeployServiceInfo)
  | scanning (targetServices : List ServiceTestTarget)
  | testing (spec : ZadigTestingJobSpec)
  | otherPayload
deriving Repr, DecidableEq

/-- A job of a workflow stage (`commonmodels.Job`). -/
structure WJob where
  name : String
  jobType : String
  spec : WJobSpec
deriving Repr, DecidableEq

/-- A workflow stage: an ordered job list. -/
structure WStage where
  jobs : List WJob
deriving Repr, DecidableEq

/-- The workflow fields `toJobtask` reads (`j.workflow`). -/
structure WorkflowCtx where
  project : String
  name : String
  displayName : String
deriving Repr, DecidableEq

/-- Compiled job properties (`commonmodels.JobProperties`), reduced to the
fields this file populates. -/
structure JobProperties where
  timeout : Nat
  customEnvs : List KeyVal
  clusterID : String
  strategyID : String
  buildOS : String
  registries : List String
  cacheEnable : Bool
  cacheDirType : String
  cacheUserDir : String
  cache : CacheConfig
  envs : List KeyVal
deriving Repr, DecidableEq

/-- One pipeline step, reduced to its identity, type tag and
run-on-failure flag (step spec payloads are consumed by the runtime, out
of scope for every claim). -/
structure StepTask where
  name : String
  stepType : String
  onfailure : Bool
deriving Repr, DecidableEq

/-- One compiled schedulable unit (`commonmodels.JobTask`). -/
structure JobTask where
  name : String
  key : String
  jobType : String
  timeout : Nat
  outputs : List String
  infrastructure : String
  vmLabels : List String
  properties : JobProperties
  steps : List StepTask
deriving Repr, DecidableEq

/-- External collaborators (catalog/storage reads, spec section 6) and
repo helper functions defined outside this excerpt (`mergeRepos`,
`renderKeyVals`, `renderEnv`, `jobNameFormat`, `getOriginJobName`,
`PrepareDefaultWorkflowTaskEnvs`, `getReposVariables`,
`configbase.SystemAddress`, `url.QueryEscape`), abstracted as parameters:
no claim depends on their internals. -/
structure Deps where
  findTesting : String → Except String TestingInfo
  listTestings : List String → Except String (List TestingInfo)
  findBasicImage : String → Except String BasicImage
  listRegistries : Except String (List String)
  getCluster : String → Except String ClusterInfo
  findDefaultS3 : Except String S3Storage
  findS3 : String → Except String S3Storage
  getOriginJobName : String → String
  mergeRepos : List Repo → List Repo → List Repo
  renderKeyVals : List KeyVal → List KeyVal → List KeyVal
  renderEnv : String → List KeyVal → String
  jobNameFormat : String → String
  prepareDefaultEnvs : String → String → String → String → Nat → List KeyVal
  reposVariables : List Repo → List KeyVal
  systemAddress : String
  queryEscape : String → String

/-! ## Cross-job target resolver (part_000 271-330) -/

/-- The per-job branch of `getOriginReferedJobTargets`: for a supported job
type, the targets recovered from its decoded spec; `none` for an
unsupported type (the Go loop continues scanning). -/
def jobTargets (job : WJob) : Option (Except String (List ServiceTestTarget)) :=
  if job.jobType == jobZadigBuild then
    some (match job.spec with
      | .build builds =>
        .ok (builds.map (fun b => ⟨b.serviceName, b.serviceModule⟩))
      | _ => .error "IToi: not a build spec")
  else if job.jobType == jobZadigDistributeImage then
    some (match job.spec with
      | .distribute ts =>
        .ok (ts.map (fun t => ⟨t.serviceName, t.serviceModule⟩))
      | _ => .error "IToi: not a distribute spec")
  else if job.jobType == jobZadigDeploy then
    some (match job.spec with
      | .deploy svcs =>
        .ok (svcs.flatMap (fun svc =>
          svc.modules.map (fun md => ⟨svc.serviceName, md.serviceModule⟩)))
      | _ => .error "IToi: not a deploy spec")
  else if job.jobType == jobZadigScanning then
    some (match job.spec with
      | .scanning ts => .ok ts
      | _ => .error "IToi: not a scanning spec")
  else none

/-- Inner loop of `getOriginReferedJobTargets`: scan a stage's jobs in
declaration order; a name match with an unsupported job type falls through
and scanning continues. -/
def scanJobs (jobName : String) : List WJob → Option (Except String (List ServiceTestTarget))
  | [] => none
  | j :: rest =>
    if j.name == jobName then
      match jobTargets j with
      | some r => some r
      | none => scanJobs jobName rest
    else scanJobs jobName rest

/-- Outer loop of `getOriginReferedJobTargets`: stages in declaration order. -/
def scanStages (jobName : String) : List WStage → Option (Except String (List ServiceTestTarget))
  | [] => none
  | st :: rest =>
    match scanJobs jobName st.jobs with
    | some r => some r
    | none => scanStages jobName rest

/-- part_000 271-330 `getOriginReferedJobTargets`: first name match with a
supported job type wins; an exhausted graph yields the not-found error. -/
def getOriginReferedJobTargets (stages : List WStage) (jobName : String) :
    Except String (List ServiceTestTarget) :=
  match scanStages jobName stages with
  | some r => r
  | none => .error ("build job " ++ jobName ++ " not found")

/-- A job the resolver can extract targets from. -/
def supportedJob (j : WJob) : Bool :=
  j.jobType == jobZadigBuild || j.jobType == jobZadigDistributeImage ||
  j.jobType == jobZadigDeploy || j.jobType == jobZadigScanning

/-! ## Spec resolver: SetPreset (part_000 54-101) -/

/-- Per-module body of the `SetPreset` loops: on catalog lookup failure the
entry is skipped unchanged (`continue`), otherwise catalog repos/env
defaults are merged in. -/
def setPresetModule (d : Deps) (m : TestModule) : TestModule :=
  match d.findTesting m.name with
  | .error _ => m
  | .ok ti =>
    { m with repos := d.mergeRepos ti.repos m.repos,
             keyVals := d.renderKeyVals m.keyVals ti.preTest.envs }

/-- part_000 54-101 `SetPreset`: merge catalog defaults into every test
module (product level), relabel the referenced job name when the source is
"from job", and for service-level tests merge per-entry defaults and filter
the target list down to configured (service, module) pairs.  Catalog lookup
failures are logged and skipped, never propagated. -/
def SetPreset (d : Deps) (spec : ZadigTestingJobSpec) :
    Except String ZadigTestingJobSpec :=
  let s1 := if spec.testType == productTestType then
      { spec with testModules := spec.testModules.map (setPresetModule d) }
    else spec
  let s2 := if s1.source == sourceFromJob then
      { s1 with originJobName := s1.jobName,
                jobName := d.getOriginJobName s1.jobName }
    else s1
  let s3 := if s2.testType == serviceTestType then
      let serviceKeys := s2.serviceAndTests.map
        (fun s => s.serviceName ++ "/" ++ s.serviceModule)
      { s2 with
        serviceAndTests := s2.serviceAndTests.map
          (fun s => { s with testModule := setPresetModule d s.testModule }),
        targetServices := s2.targetServices.filter
          (fun t => serviceKeys.contains (t.serviceName ++ "/" ++ t.serviceModule)) }
    else s2
  .ok s3

/-! ## Task assembler (part_000 332-638) -/

/-- part_000 688-704 `getTestingJobVariables`: base workflow variables,
then per-repository variables, then the fixed identity variables and the
constructed dashboard URL. -/
def getTestingJobVariables (d : Deps) (repos : List Repo) (taskID : Nat)
    (project workflowName workflowDisplayName testingProject testingName
     testType serviceName serviceModule infrastructure : String) : List KeyVal :=
  d.prepareDefaultEnvs project workflowName workflowDisplayName infrastructure taskID
  ++ d.reposVariables repos
  ++ [⟨"TESTING_PROJECT", testingProject⟩,
      ⟨"TESTING_NAME", testingName⟩,
      ⟨"TESTING_TYPE", testType⟩,
      ⟨"SERVICE", serviceName⟩,
      ⟨"SERVICE_NAME", serviceName⟩,
      ⟨"SERVICE_MODULE", serviceModule⟩,
      ⟨"BUILD_URL",
        d.systemAddress ++ "/v1/projects/detail/" ++ project ++
        "/pipelines/custom/" ++ workflowName ++ "/" ++ toString taskID ++
        "?display_name=" ++ d.queryEscape workflowDisplayName⟩]

/-- part_000 489-507: the script step type selected by the catalog's script
type, defaulting to shell on the empty string. -/
def scriptStepType (ti : TestingInfo) : String :=
  if ti.scriptType == scriptTypeShell || ti.scriptType == "" then scriptTypeShell
  else if ti.scriptType == scriptTypeBatchFile then scriptTypeBatchFile
  else if ti.scriptType == scriptTypePowerShell then scriptTypePowerShell
  else ""

/-- part_000 434-636: the emitted step pipeline in its fixed order, each
step conditionally included (step names abbreviated to their distinguishing
prefix; payloads elided). -/
def buildSteps (testingName : String) (ti : TestingInfo) (p : JobProperties)
    (postEnabled : Bool) : List StepTask :=
  [⟨testingName ++ "-tool-install", "tools", false⟩]
  ++ (if p.cacheEnable && p.cache.mediumType == objectMedium then
        [⟨testingName ++ "-download-archive", "download_archive", false⟩] else [])
  ++ [⟨testingName ++ "-git", "git", false⟩,
      ⟨testingName ++ "-debug_before", "debug_before", false⟩,
      ⟨testingName ++ "-script", scriptStepType ti, false⟩,
      ⟨testingName ++ "-debug_after", "debug_after", false⟩]
  ++ (if ti.testReportPath != "" then [⟨"html-report", "archive", true⟩] else [])
  ++ (if ti.artifactPaths != [] &&
        (ti.artifactPaths.length > 1 || ti.artifactPaths.headD "" != "") then
        [⟨"archive-result", "tar_archive", true⟩] else [])
  ++ (if ti.testResultPath != "" then [⟨"junit-report", "junit_report", true⟩] else [])
  ++ (if p.cacheEnable && p.cache.mediumType == objectMedium then
        [⟨testingName ++ "-tar-archive", "tar_archive", false⟩] else [])
  ++ (if postEnabled then [⟨"object-storage", "archive", false⟩] else [])

/-- part_000 404-417: cluster-infrastructure cache resolution: an empty
cluster cache medium forces caching off; otherwise the cluster's cache
config is inherited and an object medium eagerly resolves its backing
store (fatal on failure). -/
def resolveCacheCluster (d : Deps) (ti : TestingInfo) (ci : ClusterInfo)
    (p0 : JobProperties) : Except String (JobProperties × S3Storage) :=
  if ci.cache.mediumType == "" then
    .ok ({ p0 with cacheEnable := false }, emptyS3)
  else
    let p := { p0 with cache := ci.cache, cacheEnable := ti.cacheEnable,
                       cacheDirType := ti.cacheDirType,
                       cacheUserDir := ti.cacheUserDir }
    if p.cache.mediumType == objectMedium then
      ((d.findS3 p.cache.objectID).mapError
        (fun e => "find cache s3 storage: " ++ p.cache.objectID ++ " error: " ++ e)).map
        (fun s => (p, s))
    else .ok (p, emptyS3)

/-- part_000 419-429: when caching stays enabled, render the user cache
directory and NFS subpath templates (against the not-yet-populated env
list) and re-resolve the object store for an object medium. -/
def renderCacheIfEnabled (d : Deps) (p : JobProperties) (cs : S3Storage) :
    Except String (JobProperties × S3Storage) :=
  if p.cacheEnable then
    let p2 := { p with cacheUserDir := d.renderEnv p.cacheUserDir p.envs }
    if p2.cache.mediumType == nfsMedium then
      .ok ({ p2 with cache :=
        { p2.cache with nfsSubpath := d.renderEnv p2.cache.nfsSubpath p2.envs } }, cs)
    else if p2.cache.mediumType == objectMedium then
      ((d.findS3 p2.cache.objectID).mapError
        (fun e => "find cache s3 storage: " ++ p2.cache.objectID ++ " error: " ++ e)).map
        (fun s => (p2, s))
    else .ok (p2, cs)
  else .ok (p, cs)

/-- part_000 399-430: the two cache tracks — VM infrastructure copies the
catalog's own cache flags; cluster infrastructure goes through
`resolveCacheCluster` then `renderCacheIfEnabled`. -/
def resolveCache (d : Deps) (ti : TestingInfo) (ci : ClusterInfo)
    (p0 : JobProperties) : Except String (JobProperties × S3Storage) :=
  if ti.infrastructure == vmInfrastructure then
    .ok ({ p0 with cacheEnable := ti.cacheEnable,
                   cacheDirType := ti.cacheDirType,
                   cacheUserDir := ti.cacheUserDir }, emptyS3)
  else
    match resolveCacheCluster d ti ci p0 with
    | .error e => .error e
    | .ok pc => renderCacheIfEnabled d pc.1 pc.2

/-- part_000 332-638 `toJobtask`: resolve the catalog suite, base image,
registries and cluster (each lookup failure fatal), derive the job name and
the stable addressing key (2-part for product-level, 4-part for
service-level), populate the properties with the resolved cache policy and
environment variables, emit the step pipeline, and resolve the post-test
upload store when enabled (fatal on failure). -/
def toJobtask (d : Deps) (w : WorkflowCtx) (jobBaseName : String)
    (taskID : Nat) (randStr : String) (testing : TestModule)
    (testType serviceName serviceModule : String) : Except String JobTask :=
  match d.findTesting testing.name with
  | .error e => .error ("find testing: " ++ testing.name ++ " error: " ++ e)
  | .ok testingInfo =>
  match d.findBasicImage testingInfo.preTest.imageID with
  | .error e =>
    .error ("find basic image: " ++ testingInfo.preTest.imageID ++ " error: " ++ e)
  | .ok basicImage =>
  match d.listRegistries with
  | .error e => .error ("list registries error: " ++ e)
  | .ok registries =>
  let jobName := if testType == serviceTestType then
      d.jobNameFormat (serviceName ++ "-" ++ serviceModule ++ "-" ++ jobBaseName)
    else
      d.jobNameFormat (testing.name ++ "-" ++ jobBaseName ++ "-" ++ randStr)
  let jobKey := if testType == serviceTestType then
      String.intercalate "." [jobBaseName, testing.name, serviceName, serviceModule]
    else
      String.intercalate "." [jobBaseName, testing.name]
  let props0 : JobProperties :=
    { timeout := testingInfo.timeout,
      customEnvs := d.renderKeyVals testing.keyVals testingInfo.preTest.envs,
      clusterID := testingInfo.preTest.clusterID,
      strategyID := testingInfo.preTest.strategyID,
      buildOS := basicImage.value,
      registries := registries,
      cacheEnable := false,
      cacheDirType := "",
      cacheUserDir := "",
      cache := ⟨"", "", ""⟩,
      envs := [] }
  match d.getCluster testingInfo.preTest.clusterID with
  | .error e =>
    .error ("failed to find cluster: " ++ testingInfo.preTest.clusterID ++
      " error: " ++ e)
  | .ok clusterInfo =>
  match resolveCache d testingInfo clusterInfo props0 with
  | .error e => .error e
  | .ok pc =>
  let jobVars := getTestingJobVariables d testing.repos taskID w.project
    w.name w.displayName testing.projectName testing.name testType
    serviceName serviceModule testingInfo.infrastructure
  let props2 := { pc.1 with envs := pc.1.customEnvs ++ jobVars }
  let mkTask : Bool → JobTask := fun postEnabled =>
    { name := jobName,
      key := jobKey,
      jobType := "zadig-test",
      timeout := testingInfo.timeout,
      outputs := testingInfo.outputs,
      infrastructure := testingInfo.infrastructure,
      vmLabels := testingInfo.vmLabels,
      properties := props2,
      steps := buildSteps testing.name testingInfo props2 postEnabled }
  match testingInfo.postTest with
  | none => .ok (mkTask false)
  | some pt =>
    match pt.objectStorageUpload with
    | none => .ok (mkTask false)
    | some up =>
      if up.enabled then
        match d.findS3 up.objectStorageID with
        | .error e =>
          .error ("find object storage: " ++ up.objectStorageID ++
            " failed: " ++ e)
        | .ok _ => .ok (mkTask true)
      else .ok (mkTask false)

/-- part_000 228-236: the product-level `ToJobs` loop, aborting on the
first failing task compilation. -/
def toJobsList (d : Deps) (w : WorkflowCtx) (jobBaseName : String)
    (taskID : Nat) (randStr : String) :
    List TestModule → Except String (List JobTask)
  | [] => .ok []
  | m :: rest =>
    match toJobtask d w jobBaseName taskID randStr m "" "" "" with
    | .error e => .error e
    | .ok t =>
      match toJobsList d w jobBaseName taskID randStr rest with
      | .error e => .error e
      | .ok ts => .ok (t :: ts)

/-- part_000 253-264 inner loop: tasks for one resolved target, one per
matching service-and-test entry. -/
def serviceTasksFor (d : Deps) (w : WorkflowCtx) (jobBaseName : String)
    (taskID : Nat) (randStr : String) (target : ServiceTestTarget) :
    List ServiceAndTest → Except String (List JobTask)
  | [] => .ok []
  | s :: rest =>
    if s.serviceName == target.serviceName &&
        s.serviceModule == target.serviceModule then
      match toJobtask d w jobBaseName taskID randStr s.testModule
          serviceTestType s.serviceName s.serviceModule with
      | .error e => .error e
      | .ok t =>
        match serviceTasksFor d w jobBaseName taskID randStr target rest with
        | .error e => .error e
        | .ok ts => .ok (t :: ts)
    else serviceTasksFor d w jobBaseName taskID randStr target rest

/-- part_000 252-265 outer loop over the resolved targets. -/
def serviceJobsList (d : Deps) (w : WorkflowCtx) (jobBaseName : String)
    (taskID : Nat) (randStr : String) (sats : List ServiceAndTest) :
    List ServiceTestTarget → Except String (List JobTask)
  | [] => .ok []
  | t :: rest =>
    match serviceTasksFor d w jobBaseName taskID randStr t sats with
    | .error e => .error e
    | .ok ts1 =>
      match serviceJobsList d w jobBaseName taskID randStr sats rest with
      | .error e => .error e
      | .ok ts2 => .ok (ts1 ++ ts2)

/-- part_000 213-269 `ToJobs`: find the default object store (fatal),
compile product-level modules, re-resolve inherited targets for a
"from job" source via the cross-job resolver (fatal on failure,
unconditionally replacing the target list), then compile service-level
(target × matching entry) pairs. -/
def ToJobs (d : Deps) (stages : List WStage) (w : WorkflowCtx)
    (jobBaseName : String) (taskID : Nat) (randStr : String)
    (spec : ZadigTestingJobSpec) : Except String (List JobTask) :=
  match d.findDefaultS3 with
  | .error e => .error ("failed to find default s3 storage, error: " ++ e)
  | .ok _ =>
  match (if spec.testType == productTestType then
      toJobsList d w jobBaseName taskID randStr spec.testModules
    else Except.ok []) with
  | .error e => .error e
  | .ok productTasks =>
  match (if spec.source == sourceFromJob then
      match getOriginReferedJobTargets stages
          (if spec.originJobName != "" then spec.originJobName else spec.jobName) with
      | .error e =>
        Except.error ("get origin refered job: " ++
          (if spec.originJobName != "" then spec.originJobName else spec.jobName) ++
          " targets failed, err: " ++ e)
      | .ok ts => Except.ok ts
    else Except.ok spec.targetServices) with
  | .error e => .error e
  | .ok targets =>
  match (if spec.testType == serviceTestType then
      serviceJobsList d w jobBaseName taskID randStr spec.serviceAndTests targets
    else Except.ok []) with
  | .error e => .error e
  | .ok serviceTasks => .ok (productTasks ++ serviceTasks)

/-! ## Output and lint pass (part_000 640-686) -/

/-- Modelled from the spec: `getJobRankMap` (defined outside this excerpt)
"computes each job's rank as (stage index, job index)"; the map is built in
declaration order with Go-map overwrite semantics. -/
def getJobRankMap (stages : List WStage) : List (String × (Nat × Nat)) :=
  stages.enum.foldl (fun m si =>
    si.2.jobs.enum.foldl (fun m2 ji =>
      if m2.any (fun p => p.1 == ji.2.name) then
        m2.map (fun p => if p.1 == ji.2.name then (ji.2.name, (si.1, ji.1)) else p)
      else m2 ++ [(ji.2.name, (si.1, ji.1))]) m) []

/-- Rank map lookup (`rank, ok := jobRankMap[name]`). -/
def rankLookup (m : List (String × (Nat × Nat))) (k : String) : Option (Nat × Nat) :=
  (m.find? (fun p => p.1 == k)).map (fun p => p.2)

/-- Strict order on (stage index, job index) ranks: "strictly earlier". -/
def rankLt (a b : Nat × Nat) : Bool :=
  a.1 < b.1 || (a.1 == b.1 && a.2 < b.2)

/-- part_000 640-654 `LintJob`: only meaningful for a "from job" source;
rejects unless the referenced job's rank is strictly earlier than the
current job's (a missing referenced job also rejects; a missing current
job gets the Go zero rank). -/
def LintJob (stages : List WStage) (jobName : String)
    (spec : ZadigTestingJobSpec) : Except String Unit :=
  if spec.source != sourceFromJob then .ok () else
  let jobRankMap := getJobRankMap stages
  let cur := (rankLookup jobRankMap jobName).getD (0, 0)
  match rankLookup jobRankMap spec.jobName with
  | none => .error ("can not quote job " ++ spec.jobName ++ " in job " ++ jobName)
  | some r =>
    if rankLt r cur then .ok ()
    else .error ("can not quote job " ++ spec.jobName ++ " in job " ++ jobName)

/-- Modelled from the spec: `getOutputKey` (defined outside this excerpt)
"maps each declared output name to its full addressed key". -/
def getOutputKey (jobKey : String) (outputs : List String) : List String :=
  outputs.map (fun o => jobKey ++ "." ++ o)

/-- part_000 671-682: the per-suite `jobKey` computation of `GetOutPuts`:
initialised to the 2-part key, then — for service-level tests — overwritten
by every matching (target, service-and-test) pair of the nested loops. -/
def getOutputsTiKey (jobName : String) (spec : ZadigTestingJobSpec)
    (ti : TestingInfo) : String :=
  if spec.testType == serviceTestType then
    spec.targetServices.foldl (fun k target =>
      spec.serviceAndTests.foldl (fun k2 s =>
        if s.serviceName == target.serviceName &&
            s.serviceModule == target.serviceModule then
          jobName ++ "." ++ s.testModule.name ++ "." ++
            target.serviceName ++ "." ++ target.serviceModule
        else k2) k) (jobName ++ "." ++ ti.name)
  else jobName ++ "." ++ ti.name

/-- part_000 656-686 `GetOutPuts`: list the catalog definitions of the
test modules (failure yields the empty result), then append each returned
suite's addressed output names under its computed `jobKey`. -/
def GetOutPuts (d : Deps) (jobName : String) (spec : ZadigTestingJobSpec) :
    List String :=
  match d.listTestings (spec.testModules.map (fun m => m.name)) with
  | .error _ => []
  | .ok testingInfos =>
    testingInfos.foldl (fun resp ti =>
      resp ++ getOutputKey (getOutputsTiKey jobName spec ti) ti.outputs) []

/-- The (target, service-and-test) pairs the `GetOutPuts` nested loops
match, in loop order (targets outer, entries inner). -/
def matchingPairs (spec : ZadigTestingJobSpec) :
    List (ServiceTestTarget × ServiceAndTest) :=
  spec.targetServices.flatMap (fun t =>
    (spec.serviceAndTests.filter (fun s =>
      s.serviceName == t.serviceName && s.serviceModule == t.serviceModule)).map
      (fun s => (t, s)))

/-- The 4-part key of one matching pair. -/
def pairKey (jobName : String) (p : ServiceTestTarget × ServiceAndTest) : String :=
  jobName ++ "." ++ p.2.testModule.name ++ "." ++ p.1.serviceName ++ "." ++
    p.1.serviceModule

/-- The addressing key `GetOutPuts` actually uses for a suite: for
service-level tests the key of the LAST matching pair — independent of the
suite — when any pair matches, else the suite's 2-part key. -/
def outputJobKey (jobName : String) (spec : ZadigTestingJobSpec)
    (ti : TestingInfo) : String :=
  if spec.testType == serviceTestType then
    match (matchingPairs spec).getLast? with
    | some p => pairKey jobName p
    | none => jobName ++ "." ++ ti.name
  else jobName ++ "." ++ ti.name

/-- Is an `Except` a success? -/
def isOkB {ε α : Type} : Except ε α → Bool
  | .ok _ => true
  | .error _ => false

/-! ## Concrete compiler instances used by witnesses and counterexamples -/

/-- Pre-test section used by the example suites. -/
def exPreTest : PreTest := ⟨"img1", "cl1", "", [], []⟩

/-- Example catalog suite on cluster infrastructure with its own
cache flag set. -/
def exTI : TestingInfo :=
  ⟨"t1", 60, ["o"], "k8s", [], "", true, "", "", [], exPreTest, "", [], "", none⟩

/-- Suite `t1` with one output, used by the output-key example. -/
def exTI1 : TestingInfo :=
  ⟨"t1", 0, ["o"], "k8s", [], "", false, "", "", [], exPreTest, "", [], "", none⟩

/-- Suite `t2` with one output, used by the output-key example. -/
def exTI2 : TestingInfo :=
  ⟨"t2", 0, ["p"], "k8s", [], "", false, "", "", [], exPreTest, "", [], "", none⟩

/-- Cluster with no cache medium configured. -/
def exCluster : ClusterInfo := ⟨⟨"", "", ""⟩⟩

/-- All-success collaborators; `t1` is the only test suite in the catalog. -/
def exDeps : Deps :=
  { findTesting := fun n => if n == "t1" then .ok exTI else .error "not found",
    listTestings := fun _ => .ok [exTI],
    findBasicImage := fun _ => .ok ⟨"ubuntu"⟩,
    listRegistries := .ok [],
    getCluster := fun _ => .ok exCluster,
    findDefaultS3 := .ok "s3-default",
    findS3 := fun _ => .ok "s3",
    getOriginJobName := fun n => n,
    mergeRepos := fun a b => a ++ b,
    renderKeyVals := fun a b => a ++ b,
    renderEnv := fun s _ => s,
    jobNameFormat := fun s => s,
    prepareDefaultEnvs := fun _ _ _ _ _ => [],
    reposVariables := fun _ => [],
    systemAddress := "http://zadig",
    queryEscape := fun s => s }

/-- Collaborators whose suite listing returns `t1` and `t2`. -/
def exDeps7 : Deps := { exDeps with listTestings := fun _ => .ok [exTI1, exTI2] }

/-- Workflow context for the examples. -/
def exW : WorkflowCtx := ⟨"proj", "wf", "WF"⟩

/-- Job-level module referencing suite `t1`. -/
def exTM : TestModule := ⟨"t1", "proj", [], []⟩

/-- Service-level testing job spec with two suites on two services. -/
def exSpec7 : ZadigTestingJobSpec :=
  { testType := serviceTestType,
    testModules := [⟨"t1", "proj", [], []⟩, ⟨"t2", "proj", [], []⟩],
    serviceAndTests := [⟨⟨"t1", "proj", [], []⟩, "svcA", "modA"⟩,
                        ⟨⟨"t2", "proj", [], []⟩, "svcB", "modB"⟩],
    targetServices := [⟨"svcA", "modA"⟩, ⟨"svcB", "modB"⟩],
    source := "",
    jobName := "",
    originJobName := "" }

/-- A build job declaring two (service, module) pairs. -/
def exBuildJob : WJob :=
  ⟨"build1", jobZadigBuild, .build [⟨"svcA", "modA"⟩, ⟨"svcB", "modB"⟩]⟩

/-- Two-stage workflow: the build job, then a testing job. -/
def exStages : List WStage :=
  [⟨[exBuildJob]⟩, ⟨[⟨"test1", "zadig-test", .otherPayload⟩]⟩]

/-- Collaborators whose catalog is empty: every suite lookup fails. -/
def exDepsMissing : Deps := { exDeps with findTesting := fun _ => .error "nf" }

/-- Product-level testing job spec with one module referencing `t1`. -/
def exSpecProd : ZadigTestingJobSpec :=
  { testType := productTestType, testModules := [exTM], serviceAndTests := [],
    targetServices := [], source := "", jobName := "", originJobName := "" }

/-- "From job" spec referencing the earlier build job. -/
def exSpecFromJobOk : ZadigTestingJobSpec :=
  { testType := productTestType, testModules := [], serviceAndTests := [],
    targetServices := [], source := sourceFromJob, jobName := "build1",
    originJobName := "" }

/-- "From job" spec referencing the job itself. -/
def exSpecSelf : ZadigTestingJobSpec :=
  { exSpecFromJobOk with jobName := "test1" }

/-! ## Lemmas about the orchestration reconciler -/

theorem buildGroup_foldl_init (m : SvcMap) (g : List String)
    (init : List ProductService) :
    g.foldl (fun acc n =>
      match mapGet m n with
      | some s => acc ++ [s]
      | none => acc) init = init ++ g.filterMap (mapGet m) := by
  induction g generalizing init with
  | nil => simp
  | cons n rest ih =>
    simp only [List.foldl_cons, List.filterMap_cons]
    cases h : mapGet m n with
    | none => rw [ih]
    | some s => rw [ih]; simp

theorem buildGroup_eq (m : SvcMap) (g : List String) :
    buildGroup m g = g.filterMap (mapGet m) := by
  unfold buildGroup
  simpa using buildGroup_foldl_init m g []

theorem replayGroups_foldl_init (orch : List (List String)) (m : SvcMap)
    (init : List (List ProductService)) :
    orch.foldl (fun acc g => acc ++ [buildGroup m g]) init
      = init ++ orch.map (buildGroup m) := by
  induction orch generalizing init with
  | nil => simp
  | cons g rest ih => simp [ih]

theorem replayGroups_eq (orch : List (List String)) (m : SvcMap) :
    replayGroups orch m = orch.map (buildGroup m) := by
  unfold replayGroups
  simpa using replayGroups_foldl_init orch m []

theorem appendToLast_some (charts : List ProductService) :
    ∀ (gs : List (List ProductService)) (gl : List ProductService),
      gs.getLast? = some gl →
      appendToLast charts gs = some (gs.dropLast ++ [gl ++ charts]) := by
  intro gs
  induction gs with
  | nil => intro gl h; simp at h
  | cons g rest ih =>
    intro gl h
    cases rest with
    | nil =>
      rw [List.getLast?_singleton] at h
      cases h
      simp [appendToLast]
    | cons g2 rest2 =>
      rw [List.getLast?_cons_cons] at h
      simp only [appendToLast, ih gl h, Option.map_some']
      rw [List.dropLast_cons₂]
      simp

theorem appendToLast_flatten (charts : List ProductService) :
    ∀ (gs t : List (List ProductService)),
      appendToLast charts gs = some t → t.flatten = gs.flatten ++ charts := by
  intro gs
  induction gs with
  | nil => intro t h; simp [appendToLast] at h
  | cons g rest ih =>
    intro t h
    cases rest with
    | nil =>
      simp [appendToLast] at h
      subst h
      simp
    | cons g2 rest2 =>
      simp only [appendToLast, Option.map_eq_some'] at h
      obtain ⟨t2, ht2, rfl⟩ := h
      simp [ih t2 ht2]

theorem appendToLast_isSome (charts : List ProductService)
    (gs : List (List ProductService)) (h : gs ≠ []) :
    (appendToLast charts gs).isSome = true := by
  cases hgl : gs.getLast? with
  | none => exact absurd (List.getLast?_eq_none_iff.mp hgl) h
  | some gl => rw [appendToLast_some charts gs gl hgl]; rfl

theorem reconcile_flatten (orch : List (List String)) (m : SvcMap)
    (charts : List ProductService) (gs : List (List ProductService))
    (h : reconcileServices orch m charts = some gs) :
    gs.flatten = (orch.map (buildGroup m)).flatten ++ charts := by
  simp only [reconcileServices, replayGroups_eq] at h
  by_cases hc : charts.isEmpty
  · rw [if_pos hc] at h
    cases h
    rw [List.isEmpty_iff.mp hc]
    simp
  · rw [if_neg hc] at h
    exact appendToLast_flatten charts _ _ h

theorem reconcileGroupFlat_foldl_init (orch : List (List String)) (m : SvcMap)
    (init : List ProductService) :
    orch.foldl (fun acc g =>
      g.foldl (fun acc2 n =>
        match mapGet m n with
        | some s => acc2 ++ [s]
        | none => acc2) acc) init
      = init ++ (orch.map (buildGroup m)).flatten := by
  induction orch generalizing init with
  | nil => simp
  | cons g rest ih =>
    simp only [List.foldl_cons, List.map_cons, List.flatten_cons]
    rw [ih, buildGroup_foldl_init]
    simp [buildGroup_eq]

theorem reconcileGroupFlat_eq (orch : List (List String)) (m : SvcMap)
    (charts : List ProductService) :
    reconcileGroupFlat orch m charts
      = (orch.map (buildGroup m)).flatten ++ charts := by
  unfold reconcileGroupFlat
  rw [reconcileGroupFlat_foldl_init]
  simp

theorem mapGet_keyed (m : SvcMap) (hkey : ∀ p ∈ m, p.2.serviceName = p.1) :
    ∀ n s, mapGet m n = some s → s.serviceName = n := by
  intro n s h
  simp only [mapGet, Option.map_eq_some'] at h
  obtain ⟨p, hp, rfl⟩ := h
  have hmem := List.mem_of_find?_eq_some hp
  have heq := List.find?_some hp
  exact (hkey p hmem).trans (by simpa using heq)

theorem mem_replay_flatten (orch : List (List String)) (m : SvcMap)
    (s : ProductService) (h : s ∈ (orch.map (buildGroup m)).flatten) :
    ∃ g ∈ orch, ∃ n ∈ g, mapGet m n = some s := by
  rw [List.mem_flatten] at h
  obtain ⟨l, hl, hs⟩ := h
  rw [List.mem_map] at hl
  obtain ⟨g, hg, rfl⟩ := hl
  rw [buildGroup_eq, List.mem_filterMap] at hs
  obtain ⟨n, hn, hmn⟩ := hs
  exact ⟨g, hg, n, hn, hmn⟩

/-! ## Claim theorems: environment merge engine -/

/-- C2: for every template orchestration with at least one group, every
native-service map and every imported chart-release list, the reconciled
grouped list replays the template: it has one output group per template
group; every non-final group `i` holds exactly the template-declared names
of group `i` found in the native map, in template order; and the final
group additionally carries every imported chart release appended at the
end.  (The empty-orchestration case is the out-of-bounds hazard settled by
claim C9.) -/
theorem c2_reconcile_replays_template (orch : List (List String)) (m : SvcMap)
    (charts : List ProductService) (h : orch ≠ []) :
    ∃ gs, reconcileServices orch m charts = some gs ∧
      gs.length = orch.length ∧
      (∀ i, i + 1 < orch.length →
        gs[i]? = (orch[i]?).map (fun g => g.filterMap (mapGet m))) ∧
      gs.getLast? = (orch.getLast?).map
        (fun g => g.filterMap (mapGet m) ++ charts) := by
  by_cases hc : charts.isEmpty
  · have hce : charts = [] := List.isEmpty_iff.mp hc
    refine ⟨orch.map (buildGroup m), ?_, ?_, ?_, ?_⟩
    · simp [reconcileServices, replayGroups_eq, hc]
    · simp
    · intro i _
      rw [List.getElem?_map]
      cases orch[i]? <;> simp [buildGroup_eq]
    · rw [List.getLast?_map]
      cases orch.getLast? <;> simp [buildGroup_eq, hce]
  · obtain ⟨gl, hgl⟩ : ∃ gl, orch.getLast? = some gl := by
      cases hgo : orch.getLast? with
      | none => exact absurd (List.getLast?_eq_none_iff.mp hgo) h
      | some gl => exact ⟨gl, rfl⟩
    have hmgl : (orch.map (buildGroup m)).getLast? = some (buildGroup m gl) := by
      rw [List.getLast?_map, hgl]; rfl
    have hlen : 0 < orch.length := List.length_pos.mpr h
    refine ⟨(orch.map (buildGroup m)).dropLast ++ [buildGroup m gl ++ charts],
      ?_, ?_, ?_, ?_⟩
    · simp only [reconcileServices, replayGroups_eq, if_neg hc]
      exact appendToLast_some charts _ _ hmgl
    · simp only [List.length_append, List.length_dropLast, List.length_map,
        List.length_singleton]
      omega
    · intro i hi
      have hd : i < ((orch.map (buildGroup m)).dropLast).length := by
        simp only [List.length_dropLast, List.length_map]; omega
      rw [List.getElem?_append, if_pos hd, List.getElem?_dropLast,
        if_pos (by simp only [List.length_map]; omega), List.getElem?_map]
      cases orch[i]? <;> simp [buildGroup_eq]
    · rw [List.getLast?_concat, hgl, buildGroup_eq]
      rfl

/-- C2 witness: the spec's example, a template with groups `[[a,b],[c]]`, a
native map where `b` was replaced by `b2`, and one import-only release. -/
theorem c2_witness :
    ([["a", "b"], ["c"]] : List (List String)) ≠ [] ∧
    ∃ gs, reconcileServices [["a", "b"], ["c"]] exMap [exSvcR] = some gs ∧
      gs.length = ([["a", "b"], ["c"]] : List (List String)).length ∧
      (∀ i, i + 1 < ([["a", "b"], ["c"]] : List (List String)).length →
        gs[i]? = (([["a", "b"], ["c"]] : List (List String))[i]?).map
          (fun g => g.filterMap (mapGet exMap))) ∧
      gs.getLast? = (([["a", "b"], ["c"]] : List (List String)).getLast?).map
        (fun g => g.filterMap (mapGet exMap) ++ [exSvcR]) :=
  ⟨by decide, c2_reconcile_replays_template [["a", "b"], ["c"]] exMap [exSvcR]
    (by decide)⟩

/-- C9: appending imported chart releases indexes the rebuilt list at
`length - 1`; the index is in bounds (the reconciliation succeeds) whenever
the selected orchestration has at least one group, and is out of bounds
(modelled by `none`, a Go slice-index panic at `-1`) whenever the
orchestration is empty and at least one imported chart release exists. -/
theorem c9_last_group_index (orch : List (List String)) (m : SvcMap)
    (charts : List ProductService) :
    (orch ≠ [] → (reconcileServices orch m charts).isSome = true) ∧
    (orch = [] → charts ≠ [] → reconcileServices orch m charts = none) := by
  constructor
  · intro h
    simp only [reconcileServices, replayGroups_eq]
    by_cases hc : charts.isEmpty
    · rw [if_pos hc]; rfl
    · rw [if_neg hc]
      exact appendToLast_isSome charts _ (by simp [List.map_eq_nil_iff, h])
  · intro h1 h2
    subst h1
    have hc : charts.isEmpty = false := List.isEmpty_eq_false.mpr h2
    simp [reconcileServices, replayGroups, hc, appendToLast]

/-- C9 witness: a one-group orchestration stays in bounds; the empty
orchestration with one imported release is the out-of-bounds case. -/
theorem c9_witness :
    (reconcileServices [["a"]] exMap [exSvcR]).isSome = true ∧
    reconcileServices [] exMap [exSvcR] = none :=
  ⟨(c9_last_group_index [["a"]] exMap [exSvcR]).1 (by decide),
   (c9_last_group_index [] exMap [exSvcR]).2 rfl (by decide)⟩

/-- C10: provided the native map is keyed by service name (which the
classifier guarantees), every service in a committed grouped list is either
an imported chart release or appears by name in the selected template
orchestration — for the grouped reconciliation used by
`UpdateHelmServiceInEnv` / `UpdateHelmAllServicesInEnv` and the flat variant
used by `UpdateHelmServicesGroupInEnv` alike — and a native service whose
name is not declared in any template group is silently dropped. -/
theorem c10_template_membership (orch : List (List String)) (m : SvcMap)
    (charts : List ProductService)
    (hm : ∀ n s, mapGet m n = some s → s.serviceName = n) :
    (∀ gs, reconcileServices orch m charts = some gs →
      ∀ s ∈ gs.flatten, s ∈ charts ∨ s.serviceName ∈ orch.flatten) ∧
    (∀ s ∈ reconcileGroupFlat orch m charts,
      s ∈ charts ∨ s.serviceName ∈ orch.flatten) ∧
    (∀ n s, mapGet m n = some s → s.serviceName ∉ orch.flatten → s ∉ charts →
      ∀ gs, reconcileServices orch m charts = some gs → s ∉ gs.flatten) := by
  have core : ∀ s, s ∈ (orch.map (buildGroup m)).flatten →
      s.serviceName ∈ orch.flatten := by
    intro s hs
    obtain ⟨g, hg, n, hn, hmn⟩ := mem_replay_flatten orch m s hs
    rw [hm n s hmn]
    exact List.mem_flatten.mpr ⟨g, hg, hn⟩
  refine ⟨?_, ?_, ?_⟩
  · intro gs hgs s hs
    rw [reconcile_flatten orch m charts gs hgs, List.mem_append] at hs
    cases hs with
    | inl h => exact Or.inr (core s h)
    | inr h => exact Or.inl h
  · intro s hs
    rw [reconcileGroupFlat_eq, List.mem_append] at hs
    cases hs with
    | inl h => exact Or.inr (core s h)
    | inr h => exact Or.inl h
  · intro n s _ hname hcharts gs hgs hs
    rw [reconcile_flatten orch m charts gs hgs, List.mem_append] at hs
    cases hs with
    | inl h => exact hname (core s h)
    | inr h => exact hcharts h

/-- C10 witness: the map holds a native service `x` not declared in the
one-group template `[[a]]`; the committed result drops it. -/
theorem c10_witness :
    ((⟨"x", "rx", true, "deploy", 0⟩ : ProductService)
        ∉ ([exSvcR] : List ProductService)) ∧
    ∀ gs, reconcileServices [["a"]]
        [("a", exSvcA), ("x", ⟨"x", "rx", true, "deploy", 0⟩)] [exSvcR]
        = some gs →
      (⟨"x", "rx", true, "deploy", 0⟩ : ProductService) ∉ gs.flatten :=
  ⟨by decide, fun gs hgs =>
    (c10_template_membership [["a"]]
      [("a", exSvcA), ("x", ⟨"x", "rx", true, "deploy", 0⟩)] [exSvcR]
      (mapGet_keyed _ (by decide))).2.2 "x" ⟨"x", "rx", true, "deploy", 0⟩
      (by decide) (by decide) (by decide) gs hgs⟩

/-- C3 counterexample: two Zadig-native services share release name `relR`;
updating the imported release `relR` deletes only the first matching native
entry (`break` in helm.go 149-154), so a native entry with the same release
name survives, contradicting the claim that none remains. -/
theorem c3_counterexample :
    svcImportR.fromZadig = false ∧
    ((applyServiceUpdate [("s1", svcNativeR1), ("s2", svcNativeR2)] []
        svcImportR 5).1.any
      (fun p => p.2.releaseName == "relR")) = true := by
  decide

/-- Number of entries of a service map whose value carries release `rel`. -/
def relCount (m : SvcMap) (rel : String) : Nat :=
  (m.filter (fun p => p.2.releaseName == rel)).length

theorem relCount_zero_no_mem (m : SvcMap) (rel : String)
    (h : relCount m rel = 0) :
    ∀ p ∈ m, p.2.releaseName ≠ rel := by
  intro p hp heq
  have : p ∈ m.filter (fun p => p.2.releaseName == rel) :=
    List.mem_filter.mpr ⟨hp, by simp [heq]⟩
  rw [List.length_eq_zero.mp h] at this
  exact absurd this (List.not_mem_nil p)

theorem deleteFirstRelease_complete (rel : String) :
    ∀ m : SvcMap, relCount m rel ≤ 1 →
      ∀ p ∈ deleteFirstRelease m rel, p.2.releaseName ≠ rel := by
  intro m
  induction m with
  | nil => intro _ p hp; simp [deleteFirstRelease] at hp
  | cons q rest ih =>
    intro hcount p hp
    by_cases hq : (q.2.releaseName == rel) = true
    · simp only [deleteFirstRelease] at hp
      rw [if_pos hq] at hp
      have hstep : relCount (q :: rest) rel = relCount rest rel + 1 := by
        simp [relCount, List.filter_cons, hq]
      exact relCount_zero_no_mem rest rel (by omega) p hp
    · simp only [deleteFirstRelease] at hp
      rw [if_neg hq] at hp
      have hstep : relCount (q :: rest) rel = relCount rest rel := by
        simp [relCount, List.filter_cons, hq]
      cases hp with
      | head => simpa using hq
      | tail _ hmem => exact ih (by omega) p hmem

/-- C3 amended: updating a Zadig-native service unconditionally removes the
chart-map entry keyed by its release name; updating an imported chart
release removes the *first* native entry with the same release name, so no
native entry with that release name remains provided at most one native
entry carried it (the claim as stated fails when two native services share
the release name, see the counterexample). -/
theorem c3_exclusivity_amended (svcMap chartMap : SvcMap)
    (svc : ProductService) (now : Int) :
    (svc.fromZadig = true →
      ∀ p ∈ (applyServiceUpdate svcMap chartMap svc now).2,
        p.1 ≠ svc.releaseName) ∧
    (svc.fromZadig = false → relCount svcMap svc.releaseName ≤ 1 →
      ∀ p ∈ (applyServiceUpdate svcMap chartMap svc now).1,
        p.2.releaseName ≠ svc.releaseName) := by
  constructor
  · intro hz p hp heq
    simp only [applyServiceUpdate, if_pos hz, mapDelete] at hp
    have := (List.mem_filter.mp hp).2
    simp [heq] at this
  · intro hz hcount p hp
    simp only [applyServiceUpdate, hz, Bool.false_eq_true, if_neg,
      if_false] at hp
    exact deleteFirstRelease_complete svc.releaseName svcMap hcount p hp

/-- C3 witness: with release names unique among native services, the update
of an imported release leaves no native entry with that release name, and a
native update leaves no chart entry under its release name. -/
theorem c3_witness :
    (∀ p ∈ (applyServiceUpdate [("s1", svcNativeR1)]
        [("relR", svcImportR)] svcNativeR1 5).2, p.1 ≠ svcNativeR1.releaseName) ∧
    (∀ p ∈ (applyServiceUpdate [("s1", svcNativeR1)]
        [("relR", svcImportR)] svcImportR 5).1,
      p.2.releaseName ≠ svcImportR.releaseName) :=
  ⟨(c3_exclusivity_amended [("s1", svcNativeR1)] [("relR", svcImportR)]
      svcNativeR1 5).1 rfl,
   (c3_exclusivity_amended [("s1", svcNativeR1)] [("relR", svcImportR)]
      svcImportR 5).2 rfl (by decide)⟩

/-- C1 counterexample: on the all-success path of `UpdateHelmServiceInEnv`
(helm.go 113-209) the trace contains both the transaction start and the
lock acquisition, but no lock acquisition precedes the transaction start:
`mongo.StartTransaction` (line 117) runs before `envLock.Lock()` (line
129), refuting the claim that the lock is acquired before the storage
transaction is begun. -/
theorem c1_counterexample :
    evContains .startTxn
      (updateHelmServiceInEnv exOracleOk "p1" "e1" false exNative 7).1 = true ∧
    evContains (.lockEv (lockKey "p1" "e1"))
      (updateHelmServiceInEnv exOracleOk "p1" "e1" false exNative 7).1 = true ∧
    evBefore (.lockEv (lockKey "p1" "e1")) .startTxn
      (updateHelmServiceInEnv exOracleOk "p1" "e1" false exNative 7).1 = false := by
  decide

/-- C1 amended: in every commit operation the named lock scoped to
`(productName, envName)` is acquired *after* the storage transaction is
begun but before the transactional environment/template reads, and it is
released on every exit path, after the transaction's commit or abort. -/
theorem c1_lock_after_txn_discipline (o1 : EnvOracle) (o2 o3 : AllOracle)
    (p e : String) (production : Bool) (svc : ProductService) (now : Int)
    (services : List (List ProductService)) (idx : Nat)
    (grp : List ProductService) :
    lockDiscipline (lockKey p e)
      (updateHelmServiceInEnv o1 p e production svc now).1 = true ∧
    lockDiscipline (lockKey p e)
      (updateHelmAllServicesInEnv o2 p e services production).1 = true ∧
    lockDiscipline (lockKey p e)
      (updateHelmServicesGroupInEnv o3 p e idx grp production).1 = true := by
  refine ⟨?_, ?_, ?_⟩
  · obtain ⟨st, cv, fp, ft, up, cm⟩ := o1
    cases st
    · simp [updateHelmServiceInEnv, lockDiscipline, evContains, evBefore]
    · cases fp with
      | none =>
        simp [updateHelmServiceInEnv, lockDiscipline, evContains, evBefore]
      | some maps =>
        cases ft with
        | none =>
          simp [updateHelmServiceInEnv, lockDiscipline, evContains, evBefore]
        | some tp =>
          cases hr : reconcileServices
              (if production then tp.productionServices else tp.services)
              (applyServiceUpdate maps.1 maps.2 svc now).1
              (chartValues (applyServiceUpdate maps.1 maps.2 svc now).2) with
          | none =>
            simp [updateHelmServiceInEnv, hr, lockDiscipline, evContains,
              evBefore]
          | some gs =>
            cases up <;> cases cm <;>
              simp [updateHelmServiceInEnv, hr, lockDiscipline, evContains,
                evBefore]
  · obtain ⟨st, ft, up, cm⟩ := o2
    cases st
    · simp [updateHelmAllServicesInEnv, lockDiscipline, evContains, evBefore]
    · cases ft with
      | none =>
        simp [updateHelmAllServicesInEnv, lockDiscipline, evContains, evBefore]
      | some tp =>
        cases hr : reconcileServices
            (if production then tp.productionServices else tp.services)
            (getServiceMap services)
            (chartValues (getChartServiceMap services)) with
        | none =>
          simp [updateHelmAllServicesInEnv, hr, lockDiscipline, evContains,
            evBefore]
        | some gs =>
          cases up <;> cases cm <;>
            simp [updateHelmAllServicesInEnv, hr, lockDiscipline, evContains,
              evBefore]
  · obtain ⟨st, ft, up, cm⟩ := o3
    cases st
    · simp [updateHelmServicesGroupInEnv, lockDiscipline, evContains, evBefore]
    · cases ft with
      | none =>
        simp [updateHelmServicesGroupInEnv, lockDiscipline, evContains,
          evBefore]
      | some tp =>
        cases up <;> cases cm <;>
          simp [updateHelmServicesGroupInEnv, lockDiscipline, evContains,
            evBefore]

/-! ## Lemmas about the cross-job target resolver -/

theorem bool_eq_false_of_ne_true {b : Bool} (h : ¬ b = true) : b = false := by
  cases b with
  | false => rfl
  | true => exact absurd rfl h

theorem jobTargets_eq_none (j : WJob) (h : supportedJob j = false) :
    jobTargets j = none := by
  have h1 : (j.jobType == jobZadigBuild) = false := by
    cases hb : (j.jobType == jobZadigBuild) with
    | false => rfl
    | true => simp [supportedJob, hb] at h
  have h2 : (j.jobType == jobZadigDistributeImage) = false := by
    cases hb : (j.jobType == jobZadigDistributeImage) with
    | false => rfl
    | true => simp [supportedJob, hb] at h
  have h3 : (j.jobType == jobZadigDeploy) = false := by
    cases hb : (j.jobType == jobZadigDeploy) with
    | false => rfl
    | true => simp [supportedJob, hb] at h
  have h4 : (j.jobType == jobZadigScanning) = false := by
    cases hb : (j.jobType == jobZadigScanning) with
    | false => rfl
    | true => simp [supportedJob, hb] at h
  simp [jobTargets, h1, h2, h3, h4]

theorem jobTargets_isSome (j : WJob) (h : supportedJob j = true) :
    (jobTargets j).isSome = true := by
  simp only [supportedJob, Bool.or_eq_true] at h
  rcases h with ((h1 | h2) | h3) | h4
  · have e : j.jobType = jobZadigBuild := by simpa using h1
    simp [jobTargets, e]
  · have e : j.jobType = jobZadigDistributeImage := by simpa using h2
    simp [jobTargets, e, jobZadigDistributeImage, jobZadigBuild]
  · have e : j.jobType = jobZadigDeploy := by simpa using h3
    simp [jobTargets, e, jobZadigDeploy, jobZadigBuild, jobZadigDistributeImage]
  · have e : j.jobType = jobZadigScanning := by simpa using h4
    simp [jobTargets, e, jobZadigScanning, jobZadigBuild,
      jobZadigDistributeImage, jobZadigDeploy]

theorem scanJobs_eq (n : String) : ∀ jobs : List WJob,
    scanJobs n jobs
      = (jobs.find? (fun j => j.name == n && supportedJob j)).bind jobTargets := by
  intro jobs
  induction jobs with
  | nil => rfl
  | cons j rest ih =>
    by_cases hn : (j.name == n) = true
    · by_cases hs : supportedJob j = true
      · obtain ⟨r, hr⟩ := Option.isSome_iff_exists.mp (jobTargets_isSome j hs)
        rw [List.find?_cons_of_pos _ (by simp [hn, hs])]
        simp [scanJobs, hn, hr]
      · have hs0 : supportedJob j = false := bool_eq_false_of_ne_true hs
        have hjt := jobTargets_eq_none j hs0
        rw [List.find?_cons_of_neg _ (by simp [hs0])]
        simp [scanJobs, hn, hjt, ih]
    · have hn0 : (j.name == n) = false := bool_eq_false_of_ne_true hn
      rw [List.find?_cons_of_neg _ (by simp [hn0])]
      simp [scanJobs, hn0, ih]

theorem scanStages_eq (n : String) : ∀ stages : List WStage,
    scanStages n stages
      = ((stages.flatMap (fun st => st.jobs)).find?
          (fun j => j.name == n && supportedJob j)).bind jobTargets := by
  intro stages
  induction stages with
  | nil => rfl
  | cons st rest ih =>
    simp only [scanStages, scanJobs_eq, List.flatMap_cons, List.find?_append]
    cases hf : st.jobs.find? (fun j => j.name == n && supportedJob j) with
    | none => simp [Option.none_or, ih]
    | some j =>
      have hs : supportedJob j = true := by
        have hpj := List.find?_some hf
        exact ((Bool.and_eq_true _ _).mp hpj).2
      obtain ⟨r, hr⟩ := Option.isSome_iff_exists.mp (jobTargets_isSome j hs)
      simp [Option.or, hr]

/-! ## Claim theorems: cross-job resolver, task assembler, output and lint -/

/-- C4: `getOriginReferedJobTargets` scans stages and jobs in declaration
order; if no job with the name and a supported type exists it fails with
the not-found error, and when the first such match is a build job it
returns exactly one target per (service, module) pair of its
service-and-build list, in declaration order. -/
theorem c4_resolve_targets (stages : List WStage) (n : String) :
    ((stages.flatMap (fun st => st.jobs)).find?
        (fun j => j.name == n && supportedJob j) = none →
      ∃ e, getOriginReferedJobTargets stages n = .error e) ∧
    (∀ j builds, (stages.flatMap (fun st => st.jobs)).find?
        (fun j => j.name == n && supportedJob j) = some j →
      j.jobType = jobZadigBuild → j.spec = .build builds →
      getOriginReferedJobTargets stages n
        = .ok (builds.map (fun b => ⟨b.serviceName, b.serviceModule⟩))) := by
  constructor
  · intro h
    refine ⟨"build job " ++ n ++ " not found", ?_⟩
    unfold getOriginReferedJobTargets
    rw [scanStages_eq, h]
    rfl
  · intro j builds hf htype hspec
    unfold getOriginReferedJobTargets
    rw [scanStages_eq, hf]
    simp [jobTargets, htype, hspec]

/-- C4 witness: the two-stage example workflow; referencing `build1`
returns its two declared targets in order, referencing a missing name
fails. -/
theorem c4_witness :
    ((exStages.flatMap (fun st => st.jobs)).find?
        (fun j => j.name == "nope" && supportedJob j) = none ∧
      ∃ e, getOriginReferedJobTargets exStages "nope" = .error e) ∧
    getOriginReferedJobTargets exStages "build1"
      = .ok [⟨"svcA", "modA"⟩, ⟨"svcB", "modB"⟩] :=
  ⟨⟨by decide, (c4_resolve_targets exStages "nope").1 (by decide)⟩,
   (c4_resolve_targets exStages "build1").2 exBuildJob
     [⟨"svcA", "modA"⟩, ⟨"svcB", "modB"⟩] (by decide) rfl rfl⟩

theorem resolveCache_cluster_nomedium (d : Deps) (ti : TestingInfo)
    (ci : ClusterInfo) (p0 : JobProperties)
    (h2 : ti.infrastructure ≠ vmInfrastructure)
    (h4 : ci.cache.mediumType = "") :
    resolveCache d ti ci p0 = .ok ({ p0 with cacheEnable := false }, emptyS3) := by
  have hb : (ti.infrastructure == vmInfrastructure) = false :=
    beq_eq_false_iff_ne.mpr h2
  simp [resolveCache, resolveCacheCluster, renderCacheIfEnabled, hb, h4]

/-- C5: for every testing job compiled onto cluster (non-VM) infrastructure
whose cluster declares an empty cache medium type, any successfully
compiled job task has `CacheEnable = false`, regardless of the catalog
definition's own cache flag (the quantified `ti` carries an arbitrary
`cacheEnable`). -/
theorem c5_cluster_cache_disabled (d : Deps) (w : WorkflowCtx)
    (jobBaseName : String) (taskID : Nat) (randStr : String)
    (testing : TestModule) (testType serviceName serviceModule : String)
    (ti : TestingInfo) (ci : ClusterInfo)
    (h1 : d.findTesting testing.name = .ok ti)
    (h2 : ti.infrastructure ≠ vmInfrastructure)
    (h3 : d.getCluster ti.preTest.clusterID = .ok ci)
    (h4 : ci.cache.mediumType = "") :
    ∀ jt, toJobtask d w jobBaseName taskID randStr testing testType
        serviceName serviceModule = .ok jt →
      jt.properties.cacheEnable = false := by
  intro jt hjt
  simp only [toJobtask, h1] at hjt
  cases hbi : d.findBasicImage ti.preTest.imageID with
  | error e => simp [hbi] at hjt
  | ok bi =>
    simp only [hbi] at hjt
    cases hreg : d.listRegistries with
    | error e => simp [hreg] at hjt
    | ok regs =>
      simp only [hreg, h3] at hjt
      rw [resolveCache_cluster_nomedium d ti ci _ h2 h4] at hjt
      cases hpt : ti.postTest with
      | none =>
        simp only [hpt, Except.ok.injEq] at hjt
        subst hjt
        rfl
      | some pt =>
        simp only [hpt] at hjt
        cases hup : pt.objectStorageUpload with
        | none =>
          simp only [hup, Except.ok.injEq] at hjt
          subst hjt
          rfl
        | some up =>
          simp only [hup] at hjt
          cases hen : up.enabled with
          | false =>
            simp only [hen, Bool.false_eq_true, if_false, Except.ok.injEq] at hjt
            subst hjt
            rfl
          | true =>
            simp [hen] at hjt
            cases hs3 : d.findS3 up.objectStorageID with
            | error e => simp [hs3] at hjt
            | ok s =>
              simp only [hs3, Except.ok.injEq] at hjt
              subst hjt
              rfl

/-- C5 witness: catalog suite `t1` declares `cacheEnable = true` on cluster
infrastructure, the cluster has no cache medium; the compiled task exists
and carries `cacheEnable = false`. -/
theorem c5_witness :
    exDeps.findTesting exTM.name = .ok exTI ∧
    exTI.cacheEnable = true ∧
    isOkB (toJobtask exDeps exW "tj" 1 "r" exTM "" "" "") = true ∧
    (∀ jt, toJobtask exDeps exW "tj" 1 "r" exTM "" "" "" = .ok jt →
      jt.properties.cacheEnable = false) :=
  ⟨rfl, rfl, by decide,
   c5_cluster_cache_disabled exDeps exW "tj" 1 "r" exTM "" "" "" exTI
     exCluster rfl (by decide) rfl rfl⟩

/-- Ranks are irreflexive: a job's rank is never strictly less than itself. -/
theorem rankLt_irrefl (a : Nat × Nat) : rankLt a a = false := by
  simp [rankLt]

/-- C6: `LintJob` accepts every job whose source is not "from job"; for a
"from job" source it succeeds exactly when the referenced job has a rank
(stage index, job index) strictly less than the current job's, so in
particular a self-reference always fails. -/
theorem c6_lint_backward_refs (stages : List WStage) (jobName : String)
    (spec : ZadigTestingJobSpec) :
    (spec.source ≠ sourceFromJob → LintJob stages jobName spec = .ok ()) ∧
    (spec.source = sourceFromJob →
      (LintJob stages jobName spec = .ok () ↔
        ∃ r, rankLookup (getJobRankMap stages) spec.jobName = some r ∧
          rankLt r ((rankLookup (getJobRankMap stages) jobName).getD (0, 0))
            = true)) ∧
    (spec.source = sourceFromJob → spec.jobName = jobName →
      ∃ e, LintJob stages jobName spec = .error e) := by
  refine ⟨?_, ?_, ?_⟩
  · intro h
    have hb : (spec.source != sourceFromJob) = true := bne_iff_ne.mpr h
    simp [LintJob, hb]
  · intro h
    simp only [LintJob, h, bne_self_eq_false, Bool.false_eq_true, if_false]
    cases hr : rankLookup (getJobRankMap stages) spec.jobName with
    | none => simp
    | some r =>
      cases hlt : rankLt r ((rankLookup (getJobRankMap stages) jobName).getD (0, 0)) with
      | false => simp [hlt]
      | true => simp [hlt]
  · intro h hself
    simp only [LintJob, h, bne_self_eq_false, Bool.false_eq_true, if_false]
    rw [hself]
    cases hr : rankLookup (getJobRankMap stages) jobName with
    | none => simp [hr]
    | some r => simp [hr, rankLt_irrefl]

/-- C6 witness: in the two-stage example workflow, the testing job may
reference the earlier build job, and a self-reference is rejected. -/
theorem c6_witness :
    LintJob exStages "test1" exSpecFromJobOk = .ok () ∧
    ∃ e, LintJob exStages "test1" exSpecSelf = .error e :=
  ⟨((c6_lint_backward_refs exStages "test1" exSpecFromJobOk).2.1 rfl).mpr
      ⟨(0, 0), by decide, by decide⟩,
   (c6_lint_backward_refs exStages "test1" exSpecSelf).2.2 rfl rfl⟩

/-! ## Lemmas about the output pass -/

theorem foldl_const_update {α β : Type} (f : α → β) :
    ∀ (l : List α) (init : β),
      l.foldl (fun _ a => f a) init
        = (match l.getLast? with
           | some a => f a
           | none => init) := by
  intro l
  induction l with
  | nil => intro init; rfl
  | cons a rest ih =>
    intro init
    cases rest with
    | nil => rfl
    | cons b r2 =>
      rw [List.foldl_cons, ih, List.getLast?_cons_cons]
      cases hgl : (b :: r2).getLast? with
      | none => simp [List.getLast?_eq_none_iff] at hgl
      | some x => simp [hgl]

theorem inner_foldl_pairs (t : ServiceTestTarget) (jobName : String) :
    ∀ (sats : List ServiceAndTest) (k : String),
      sats.foldl (fun k2 s =>
        if s.serviceName == t.serviceName &&
            s.serviceModule == t.serviceModule then
          jobName ++ "." ++ s.testModule.name ++ "." ++
            t.serviceName ++ "." ++ t.serviceModule
        else k2) k
      = ((sats.filter (fun s => s.serviceName == t.serviceName &&
            s.serviceModule == t.serviceModule)).map (fun s => (t, s))).foldl
          (fun _ p => pairKey jobName p) k := by
  intro sats
  induction sats with
  | nil => intro k; rfl
  | cons s rest ih =>
    intro k
    by_cases hc : (s.serviceName == t.serviceName &&
        s.serviceModule == t.serviceModule) = true
    · simp only [List.foldl_cons, List.filter_cons, hc, if_true, List.map_cons]
      exact ih _
    · have hc0 := bool_eq_false_of_ne_true hc
      simp only [List.foldl_cons, List.filter_cons, hc0, Bool.false_eq_true,
        if_false]
      exact ih k

theorem targets_foldl_pairs (jobName : String) (sats : List ServiceAndTest) :
    ∀ (targets : List ServiceTestTarget) (k : String),
      targets.foldl (fun k t => sats.foldl (fun k2 s =>
        if s.serviceName == t.serviceName &&
            s.serviceModule == t.serviceModule then
          jobName ++ "." ++ s.testModule.name ++ "." ++
            t.serviceName ++ "." ++ t.serviceModule
        else k2) k) k
      = (targets.flatMap (fun t =>
          (sats.filter (fun s => s.serviceName == t.serviceName &&
            s.serviceModule == t.serviceModule)).map (fun s => (t, s)))).foldl
          (fun _ p => pairKey jobName p) k := by
  intro targets
  induction targets with
  | nil => intro k; rfl
  | cons t rest ih =>
    intro k
    rw [List.foldl_cons, inner_foldl_pairs, ih, List.flatMap_cons,
      List.foldl_append]

theorem getOutputsTiKey_eq (jobName : String) (spec : ZadigTestingJobSpec)
    (ti : TestingInfo) :
    getOutputsTiKey jobName spec ti = outputJobKey jobName spec ti := by
  by_cases htt : (spec.testType == serviceTestType) = true
  · simp only [getOutputsTiKey, outputJobKey, htt, if_true]
    rw [targets_foldl_pairs, foldl_const_update]
    have hmp : matchingPairs spec
        = spec.targetServices.flatMap (fun t =>
            (spec.serviceAndTests.filter (fun s =>
              s.serviceName == t.serviceName &&
              s.serviceModule == t.serviceModule)).map (fun s => (t, s))) := rfl
    rw [← hmp]
    cases hgl : (matchingPairs spec).getLast? with
    | none => simp [hgl]
    | some p => simp [hgl]
  · have h0 := bool_eq_false_of_ne_true htt
    simp [getOutputsTiKey, outputJobKey, h0]

theorem foldl_append_flatMap {α β : Type} (f : α → List β) :
    ∀ (l : List α) (init : List β),
      l.foldl (fun acc a => acc ++ f a) init = init ++ l.flatMap f := by
  intro l
  induction l with
  | nil => intro init; simp
  | cons a rest ih => intro init; simp [ih]

/-- C7 counterexample: a service-level job with two suites `t1`, `t2` on
two services; suite `t1`'s declared output `o` is addressed under the key
of the LAST matching pair (`tj.t2.svcB.modB`), not under its own 4-part
key `tj.t1.svcA.modA`, refuting the per-suite addressing claim. -/
theorem c7_counterexample :
    GetOutPuts exDeps7 "tj" exSpec7
      = ["tj.t2.svcB.modB.o", "tj.t2.svcB.modB.p"] ∧
    "tj.t1.svcA.modA.o" ∉ GetOutPuts exDeps7 "tj" exSpec7 := by
  constructor
  · rfl
  · decide

/-- C7 amended: `GetOutPuts` maps every declared output name of each
returned suite to an addressed key, where product-level suites get their
own 2-part key (jobName.testName) as claimed, but every service-level
suite gets the SAME key — the 4-part key of the last matching
(target, service-and-test) pair, independent of the suite — falling back
to the suite's 2-part key only when no pair matches. -/
theorem c7_outputs_amended (d : Deps) (jobName : String)
    (spec : ZadigTestingJobSpec) (infos : List TestingInfo)
    (h : d.listTestings (spec.testModules.map (fun m => m.name)) = .ok infos) :
    GetOutPuts d jobName spec
      = infos.flatMap (fun ti =>
          getOutputKey (outputJobKey jobName spec ti) ti.outputs) := by
  simp only [GetOutPuts, h]
  rw [foldl_append_flatMap]
  have hkey : (fun ti => getOutputKey (getOutputsTiKey jobName spec ti) ti.outputs)
      = fun ti => getOutputKey (outputJobKey jobName spec ti) ti.outputs := by
    funext ti
    rw [getOutputsTiKey_eq]
  rw [List.nil_append, hkey]

/-- C7 witness: the amended characterization instantiated on the two-suite
service-level example. -/
theorem c7_witness :
    exDeps7.listTestings (exSpec7.testModules.map (fun m => m.name))
      = .ok [exTI1, exTI2] ∧
    GetOutPuts exDeps7 "tj" exSpec7
      = [exTI1, exTI2].flatMap (fun ti =>
          getOutputKey (outputJobKey "tj" exSpec7 ti) ti.outputs) :=
  ⟨rfl, c7_outputs_amended exDeps7 "tj" exSpec7 [exTI1, exTI2] rfl⟩

/-! ## Lemmas about the two lookup-failure policies -/

theorem toJobsList_ok_all (d : Deps) (w : WorkflowCtx) (jobBaseName : String)
    (taskID : Nat) (randStr : String) :
    ∀ (l : List TestModule) (ts : List JobTask),
      toJobsList d w jobBaseName taskID randStr l = .ok ts →
      ∀ m ∈ l, ∃ jt, toJobtask d w jobBaseName taskID randStr m "" "" "" = .ok jt := by
  intro l
  induction l with
  | nil => intro ts _ m hm; exact absurd hm (List.not_mem_nil m)
  | cons m0 rest ih =>
    intro ts hok m hm
    simp only [toJobsList] at hok
    cases h0 : toJobtask d w jobBaseName taskID randStr m0 "" "" "" with
    | error e => rw [h0] at hok; simp at hok
    | ok t =>
      rw [h0] at hok
      cases hrest : toJobsList d w jobBaseName taskID randStr rest with
      | error e => rw [hrest] at hok; simp at hok
      | ok ts2 =>
        cases hm with
        | head => exact ⟨t, h0⟩
        | tail _ hmem => exact ih ts2 hrest m hmem

theorem toJobtask_error_of_findTesting (d : Deps) (w : WorkflowCtx)
    (jobBaseName : String) (taskID : Nat) (randStr : String)
    (testing : TestModule) (testType serviceName serviceModule : String)
    (e : String) (h : d.findTesting testing.name = .error e) :
    toJobtask d w jobBaseName taskID randStr testing testType serviceName
      serviceModule = .error ("find testing: " ++ testing.name ++ " error: " ++ e) := by
  simp [toJobtask, h]

/-- C8: the two failure policies — a failed catalog suite lookup during
`SetPreset` is non-fatal (the entry is skipped unchanged and `SetPreset`
still succeeds with the partial result), while the same lookup failure
during compilation makes `toJobtask` return an error, which aborts the
whole `ToJobs` operation. -/
theorem c8_lookup_policy (d : Deps) (stages : List WStage) (w : WorkflowCtx)
    (jobBaseName : String) (taskID : Nat) (randStr : String)
    (spec : ZadigTestingJobSpec) (tm : TestModule)
    (testType serviceName serviceModule : String) :
    (∃ s2, SetPreset d spec = .ok s2 ∧
      (spec.testType = productTestType →
        s2.testModules = spec.testModules.map (setPresetModule d))) ∧
    (∀ m e, d.findTesting m.name = .error e → setPresetModule d m = m) ∧
    (∀ e, d.findTesting tm.name = .error e →
      ∃ msg, toJobtask d w jobBaseName taskID randStr tm testType serviceName
        serviceModule = .error msg) ∧
    (spec.testType = productTestType →
      (∃ m ∈ spec.testModules, ∃ e, d.findTesting m.name = .error e) →
      ∀ r, ToJobs d stages w jobBaseName taskID randStr spec ≠ .ok r) := by
  refine ⟨?_, ?_, ?_, ?_⟩
  · refine ⟨_, rfl, ?_⟩
    intro htt
    have hps : productTestType ≠ serviceTestType := by decide
    by_cases hsrc : spec.source = sourceFromJob <;>
      simp [SetPreset, htt, hsrc, hps]
  · intro m e he
    simp [setPresetModule, he]
  · intro e he
    exact ⟨_, toJobtask_error_of_findTesting d w jobBaseName taskID randStr
      tm testType serviceName serviceModule e he⟩
  · intro htt hex r hok
    obtain ⟨m, hm, e, he⟩ := hex
    simp only [ToJobs] at hok
    cases hd : d.findDefaultS3 with
    | error e2 => rw [hd] at hok; simp at hok
    | ok s3 =>
      rw [hd, htt] at hok
      simp only [beq_self_eq_true, if_true] at hok
      cases hTJ : toJobsList d w jobBaseName taskID randStr spec.testModules with
      | error e2 => rw [hTJ] at hok; simp at hok
      | ok pts =>
        obtain ⟨jt, hjt⟩ := toJobsList_ok_all d w jobBaseName taskID randStr
          spec.testModules pts hTJ m hm
        rw [toJobtask_error_of_findTesting d w jobBaseName taskID randStr
          m "" "" "" e he] at hjt
        exact absurd hjt (by simp)

/-- C8 witness: with an empty catalog, `SetPreset` still succeeds and the
failed module is left unchanged, while `toJobtask` errors and `ToJobs`
aborts. -/
theorem c8_witness :
    (∃ s2, SetPreset exDepsMissing exSpecProd = .ok s2 ∧
      (exSpecProd.testType = productTestType →
        s2.testModules = exSpecProd.testModules.map (setPresetModule exDepsMissing))) ∧
    setPresetModule exDepsMissing exTM = exTM ∧
    (∃ msg, toJobtask exDepsMissing exW "tj" 1 "r" exTM "" "" "" = .error msg) ∧
    (∀ r, ToJobs exDepsMissing exStages exW "tj" 1 "r" exSpecProd ≠ .ok r) :=
  ⟨(c8_lookup_policy exDepsMissing exStages exW "tj" 1 "r" exSpecProd exTM
      "" "" "").1,
   (c8_lookup_policy exDepsMissing exStages exW "tj" 1 "r" exSpecProd exTM
      "" "" "").2.1 exTM "nf" rfl,
   (c8_lookup_policy exDepsMissing exStages exW "tj" 1 "r" exSpecProd exTM
      "" "" "").2.2.1 "nf" rfl,
   (c8_lookup_policy exDepsMissing exStages exW "tj" 1 "r" exSpecProd exTM
      "" "" "").2.2.2 rfl ⟨exTM, by decide, "nf", rfl⟩⟩

end Zadig
